import Mathlib

/-!
Shallow embedding of the ava-repl command registry and dispatch engine.

Sources embedded here:
  * CommandHandler module (FieldSpec, CommandSpec, the handler classes
    with their command decorations, META_COMMANDS, CommandHandler)
  * App.connectAvaNode (its parameter defaults)
  * AvaShell.evalHandler (the repl eval loop)

Conventions of the embedding:
  * JavaScript string-or-null values become Option String; JS truthiness
    of such a value is the predicate optTruthy below (null and the empty
    string are falsy).
  * Console output relevant to the claims is represented by the
    DispatchResult constructors; each constructor corresponds to one
    early-return branch of CommandHandler.handleCommand.
  * Handler method bodies are external collaborator calls; they are
    modelled by an oracle argument returning Except (a thrown JS error is
    the error case).
  * Properties inherited from Object.prototype are not modelled in the
    dynamic method lookup; the claims do not exercise them.
-/

namespace AvaRepl

/-- Truthiness of a JS value that is either a string or null or undefined:
null, undefined and the empty string are falsy. -/
def optTruthy : Option String → Bool
  | none => false
  | some s => !(s == "")

/-- The JS expression a or-else b for string-or-null values, as in
targetContext or-else this.activeContext in printHelp. -/
def jsOr (a b : Option String) : Option String :=
  if optTruthy a then a else b

/-- FieldSpec from the CommandHandler module: a field name and an optional
default value (the constructor default is null, modelled as none). -/
structure FieldSpec where
  name : String
  defaultValue : Option String := none
deriving DecidableEq, Repr

/-- The JS test (not this.defaultValue): true when the default value is
null or the empty string. -/
def FieldSpec.isFalsyDefault (f : FieldSpec) : Bool :=
  match f.defaultValue with
  | none => true
  | some s => s == ""

/-- FieldSpec.toHelpString: a field with a falsy default renders in angle
brackets, otherwise in square brackets with its default. -/
def FieldSpec.toHelpString (f : FieldSpec) : String :=
  if f.isFalsyDefault then
    "<" ++ f.name ++ ">"
  else
    "[" ++ f.name ++ "=" ++ f.defaultValue.getD "" ++ "]"

/-- CommandSpec from the CommandHandler module. The name and context
fields are unset at construction (modelled as the empty string) and are
assigned by CommandHandler.addCommandSpec. -/
structure CommandSpec where
  name : String := ""
  context : String := ""
  fields : List FieldSpec
  description : String
deriving DecidableEq, Repr

/-- The loop in the CommandSpec constructor: countRequiredFields is
incremented once for every field whose defaultValue is falsy. -/
def CommandSpec.countRequiredFields (c : CommandSpec) : Nat :=
  c.fields.foldl (fun acc f => if f.isFalsyDefault then acc + 1 else acc) 0

/-- CommandSpec.validateInput: false when fewer arguments than
countRequiredFields are supplied, true otherwise. -/
def CommandSpec.validateInput (c : CommandSpec) (params : List String) : Bool :=
  if params.length < c.countRequiredFields then false else true

/-- The single usage line built by CommandSpec.printUsage before the
description line: the command name followed by the rendered fields. -/
def CommandSpec.usageLine (c : CommandSpec) : String :=
  let fieldStrs := c.fields.map FieldSpec.toHelpString
  if fieldStrs.length != 0 then
    c.name ++ " " ++ String.intercalate " " fieldStrs
  else
    c.name

/-- CommandSpec.printUsage as the list of printed lines: the usage line,
the description line, and the trailing blank line. -/
def CommandSpec.printUsage (c : CommandSpec) (pre : String) : List String :=
  [pre ++ c.usageLine, pre ++ "- " ++ c.description, ""]

/-- CommandSpec.id: context, underscore, name. -/
def CommandSpec.id (c : CommandSpec) : String :=
  c.context ++ "_" ++ c.name

/-- Helper for the registry data below: a required field (no default). -/
def fieldReq (n : String) : FieldSpec := { name := n }

/-- Helper for the registry data below: a field with a default value. -/
def fieldOpt (n d : String) : FieldSpec := { name := n, defaultValue := some d }

/-- Helper for the registry data below: a CommandSpec as constructed at a
command decoration site (name and context still unset). -/
def spec0 (fs : List FieldSpec) (d : String) : CommandSpec :=
  { fields := fs, description := d }

/-- The command decorations of InfoCommandHandler, in declaration order,
as the metadata map consumed by addCommandSpec. -/
def infoHandlerSpecs : List (String × CommandSpec) := [
  ("nodeId", spec0 [] "Show current node ID"),
  ("txFee", spec0 [] "Get transaction fee of the network"),
  ("networkId", spec0 [] "Get the ID of the network this node is participating in."),
  ("networkName", spec0 [] "Get the name of the network this node is participating in."),
  ("nodeVersion", spec0 [] "Show current node version"),
  ("peers", spec0 [] "Show the peers connected to the node")]

/-- The command decorations of HealthCommandHandler. -/
def healthHandlerSpecs : List (String × CommandSpec) := [
  ("getLiveness", spec0 [] "Check health of node")]

/-- The command decorations of KeystoreCommandHandler, in declaration
order. -/
def keystoreHandlerSpecs : List (String × CommandSpec) := [
  ("listUsers", spec0 [] "List the names of all users on the node"),
  ("createUser", spec0 [fieldReq "username", fieldReq "password"]
    "Creates a user in the node’s database."),
  ("deleteUser", spec0 [fieldReq "username", fieldReq "password"] "Delete a user"),
  ("exportUser", spec0 [fieldReq "username", fieldReq "password"] "Export a user"),
  ("importUser", spec0 [fieldReq "username", fieldReq "password", fieldReq "encryptedBlob"]
    "Import a user"),
  ("login", spec0 [fieldReq "username", fieldReq "password"]
    "Authenticate with a username and password"),
  ("setUser", spec0 [fieldReq "username"] "Sets the active user for future avm commands")]

/-- The command decorations of PlatformCommandHandler, in declaration
order. -/
def platformHandlerSpecs : List (String × CommandSpec) := [
  ("createAddress", spec0 [] "Create a new P-Chain address"),
  ("listAddresses", spec0 [] "Show all P-Chain addresses for current user"),
  ("listBalances", spec0 [] "List balance for all your P-Chain accounts"),
  ("getBalance", spec0 [fieldReq "address"] "Fetch P-Chain account by address"),
  ("createSubnet", spec0 [fieldReq "threshold", fieldReq "controlKeys..."]
    "Create a new Subnet. The Subnet’s ID is the same as this transaction’s ID."),
  ("getSubnets", spec0 [fieldReq "subnetIds..."]
    "Get info about specified subnets. If no id specified, get info on all subnets"),
  ("getTxStatus", spec0 [fieldReq "txId"] "Check the status of a transaction id"),
  ("importAVAX", spec0 [fieldReq "dest", fieldOpt "sourceChain" "X"]
    "Finalize a transfer of AVA from the X-Chain to the P-Chain."),
  ("exportAVAX", spec0 [fieldReq "amount", fieldReq "x-dest"]
    "Send AVA from an account on the P-Chain to an address on the X-Chain."),
  ("issueTx", spec0 [fieldReq "tx"] "Issue a transaction to the platform chain"),
  ("addValidator", spec0 [fieldReq "destination", fieldReq "stakeAmount", fieldReq "endTimeDays"]
    "Add current node to default subnet (sign and issue the transaction)"),
  ("addSubnetValidator", spec0 [fieldReq "subnetId", fieldReq "weight", fieldReq "endTimeDays"]
    "Add current node to default subnet (sign and issue the transaction)"),
  ("getPendingValidators", spec0 [fieldOpt "subnetId" "default"]
    "List pending validator set for a subnet, or the Default Subnet if no subnetId is specified"),
  ("getCurrentValidators", spec0 [fieldOpt "subnetId" "default"]
    "List current validator set for a subnet, or the Default Subnet if no subnetId is specified"),
  ("isCurrentValidator", spec0 [fieldOpt "subnetId" "default"]
    "Check if current node is a validator for a subnet, or the Default Subnet if no subnetId is specified")]

/-- The command decorations of AvmCommandHandler, in declaration order. -/
def avmHandlerSpecs : List (String × CommandSpec) := [
  ("getAssetDescription", spec0 [fieldReq "assetId"]
    "Get an asset\x27s name and symbol from asset id"),
  ("createFixedCapAsset", spec0 [fieldReq "name", fieldReq "symbol",
      fieldReq "initialHolderAddress", fieldReq "initialHolderAmount"]
    "Create a fixed cap asset with default denomination."),
  ("createVariableCapAsset", spec0 [fieldReq "name", fieldReq "symbol",
      fieldReq "minterAddresses", fieldReq "minterThreshold"]
    "Create a variable set asset. For a minter set, separate multiple minter addresses with comma."),
  ("mint", spec0 [fieldReq "amount", fieldReq "assetId", fieldReq "toAddress", fieldReq "minters"]
    "Mint more of a variable supply asset. This creates an unsigned transaction."),
  ("importAVAX", spec0 [fieldReq "dest", fieldOpt "sourceChain" "P"]
    "Import AVAX from a source chain."),
  ("exportAVAX", spec0 [fieldReq "dest", fieldReq "amount"]
    "Send AVA from the X-Chain to an account on the P-Chain."),
  ("listAddresses", spec0 [] "List all X-Chain addresses controlled by the current user"),
  ("listBalances", spec0 [] "List balances of all X-Chain addresses controlled by the current user"),
  ("createAddress", spec0 [] "Create a new X-Chain addresses controlled by the current user"),
  ("getBalance", spec0 [fieldReq "address", fieldOpt "asset" "AVAX"]
    "Get the balance of an asset in an account"),
  ("getAllBalances", spec0 [fieldReq "address"] "Get the balance of all assets in an account"),
  ("send", spec0 [fieldReq "fromAddress", fieldReq "toAddress", fieldReq "amount",
      fieldOpt "asset" "AVAX"]
    "Sends asset from an address managed by this node\x27s keystore to a destination address"),
  ("getTxStatus", spec0 [fieldReq "txId"] "Check the status of a transaction id"),
  ("listTxs", spec0 [] "Show the status transactions that have been submitted in this session")]

/-- Insertion into the commandSpecMap JS object: an existing key keeps its
position and has its value replaced, a new key is appended. -/
def specMapInsert : List (String × CommandSpec) → String → CommandSpec →
    List (String × CommandSpec)
  | [], k, v => [(k, v)]
  | (k0, v0) :: rest, k, v =>
    if k0 == k then (k0, v) :: rest
    else (k0, v0) :: specMapInsert rest k v

/-- Lookup in the commandSpecMap JS object. -/
def lookupSpec : List (String × CommandSpec) → String → Option CommandSpec
  | [], _ => none
  | (k0, v0) :: rest, k => if k0 == k then some v0 else lookupSpec rest k

/-- CommandHandler.addCommandSpec: for every decorated method of the
handler, set the spec name to the method name and the spec context to the
given context, then store the spec in the map under its id. There is no
duplicate check. -/
def addCommandSpec (m : List (String × CommandSpec))
    (handlerSpecs : List (String × CommandSpec)) (context : String) :
    List (String × CommandSpec) :=
  handlerSpecs.foldl
    (fun acc entry =>
      let s : CommandSpec := { entry.2 with name := entry.1, context := context }
      specMapInsert acc (CommandSpec.id s) s)
    m

/-- The commandSpecMap built by the CommandHandler constructor, which
registers the handlers in the order keystore, info, avm, platform, health
(the context strings are the CommandContext enum values). -/
def commandSpecMap : List (String × CommandSpec) :=
  addCommandSpec
    (addCommandSpec
      (addCommandSpec
        (addCommandSpec
          (addCommandSpec [] keystoreHandlerSpecs "keystore")
          infoHandlerSpecs "info")
        avmHandlerSpecs "avm")
      platformHandlerSpecs "platform")
    healthHandlerSpecs "health"

/-- The keys of the handlerMap object literal in the CommandHandler
constructor, in declaration order. -/
def handlerMapContexts : List String :=
  ["info", "keystore", "avm", "platform", "health"]

/-- The enumerable properties of each handler object, in declaration
order: every method of the class, including the undecorated helper
methods whose names start with an underscore. Properties inherited from
Object.prototype are not modelled. -/
def handlerMethods (context : String) : List String :=
  if context == "info" then
    ["nodeId", "txFee", "networkId", "networkName", "nodeVersion", "peers"]
  else if context == "keystore" then
    ["listUsers", "createUser", "deleteUser", "exportUser", "importUser", "login", "setUser"]
  else if context == "avm" then
    ["_getActiveUser", "getAssetDescription", "createFixedCapAsset", "createVariableCapAsset",
     "mint", "importAVAX", "exportAVAX", "listAddresses", "listBalances", "createAddress",
     "getBalance", "getAllBalances", "send", "getTxStatus", "listTxs"]
  else if context == "platform" then
    ["_getActiveUser", "createAddress", "listAddresses", "listBalances", "getBalance",
     "createSubnet", "getSubnets", "getTxStatus", "importAVAX", "exportAVAX", "issueTx",
     "addValidator", "addSubnetValidator", "getPendingValidators", "getCurrentValidators",
     "isCurrentValidator"]
  else if context == "health" then
    ["getLiveness"]
  else []

/-- The JS String.prototype.startsWith test used by the constructor
filter, as a structural function on the character lists. -/
def strStartsWith (s p : String) : Bool :=
  p.data.isPrefixOf s.data

/-- The contextMethodMap built by the constructor loop: for each handlerMap
key in order, the enumerable methods not starting with an underscore. -/
def contextMethodMap : List (String × List String) :=
  handlerMapContexts.map
    (fun c => (c, (handlerMethods c).filter (fun m => !(strStartsWith m "_"))))

/-- CommandHandler.isContext: truthiness of handlerMap lookup. -/
def isContext (c : String) : Bool :=
  handlerMapContexts.contains c

/-- Truthiness of handler bracket lookup of a method name on the handler
object of the given context. -/
def methodExists (context m : String) : Bool :=
  (handlerMethods context).contains m

/-- The META_COMMANDS constant. -/
def META_COMMANDS : List String := ["help", "exit"]

/-- CommandHandler.getTopLevelCommands: push every META_COMMANDS entry,
then push every handlerMap key. -/
def getTopLevelCommands : List String :=
  handlerMapContexts.foldl (fun out context => out ++ [context])
    (META_COMMANDS.foldl (fun out cmd => out ++ [cmd]) [])

/-- CommandHandler.getCommandSpec: commandSpecMap lookup of context,
underscore, method. -/
def getCommandSpec (context m : String) : Option CommandSpec :=
  lookupSpec commandSpecMap (context ++ "_" ++ m)

/-- Lexicographic comparison of character lists by code point, the
comparison JS Array.sort applies to the ASCII names sorted by
printHelp. -/
def charListLe : List Char → List Char → Bool
  | [], _ => true
  | _ :: _, [] => false
  | c :: cs, d :: ds =>
    if c.toNat < d.toNat then true
    else if d.toNat < c.toNat then false
    else charListLe cs ds

/-- Lexicographic order on strings by code point. -/
def strLe (a b : String) : Bool := charListLe a.data b.data

/-- Insertion of a string into an already sorted list, for the JS
Array.sort used by printHelp. -/
def insertSorted (x : String) : List String → List String
  | [] => [x]
  | y :: ys => if strLe x y then x :: y :: ys else y :: insertSorted x ys

/-- Lexicographic string sort, the behavior of JS Array.sort with no
comparator on the ASCII names sorted by printHelp. -/
def sortStrings : List String → List String
  | [] => []
  | x :: xs => insertSorted x (sortStrings xs)

/-- The three header lines printed at the top of printHelp. -/
def helpHeader : List String :=
  ["-------------------", "SUPPORTED COMMANDS:", "-------------------"]

/-- Lookup in the contextMethodMap JS object. -/
def lookupMethods : List (String × List String) → String → List String
  | [], _ => []
  | (k, v) :: rest, c => if k == c then v else lookupMethods rest c

/-- The inner loop body of printHelp for one method: print the spec usage
when getCommandSpec finds a spec, otherwise the indented bare method name
and a blank line. -/
def renderMethod (sm : List (String × CommandSpec)) (context m : String) : List String :=
  match lookupSpec sm (context ++ "_" ++ m) with
  | some cs => cs.printUsage "    "
  | none => ["    " ++ m, ""]

/-- The lines printed by printHelp for one context that is not skipped:
the context name, each method in sorted order, and a blank line. -/
def contextBlock (cm : List (String × List String)) (sm : List (String × CommandSpec))
    (context : String) : List String :=
  [context] ++ (sortStrings (lookupMethods cm context)).flatMap (renderMethod sm context) ++ [""]

/-- The outer loop of printHelp over the sorted context names: a context
different from a truthy target is skipped with continue, every other
context contributes its block. -/
def printHelpLoop (cm : List (String × List String)) (sm : List (String × CommandSpec))
    (target : Option String) : List String → List String
  | [] => []
  | context :: rest =>
    if optTruthy target && !(context == target.getD "") then
      printHelpLoop cm sm target rest
    else
      contextBlock cm sm context ++ printHelpLoop cm sm target rest

/-- CommandHandler.printHelp as the list of printed lines. The target is
first replaced by the JS expression targetContext or-else activeContext;
the contexts are the sorted keys of contextMethodMap. The maps are
parameters standing for the instance fields of CommandHandler; the actual
instance uses contextMethodMap and commandSpecMap. -/
def printHelp (cm : List (String × List String)) (sm : List (String × CommandSpec))
    (activeContext : Option String) (target0 : Option String) : List String :=
  helpHeader ++ printHelpLoop cm sm (jsOr target0 activeContext) (sortStrings (cm.map Prod.fst))

/-- App.connectAvaNode viewed through its parameter defaults: an absent
address, port or protocol argument falls back to 127.0.0.1, 9650 and http
respectively (the numeric port default is modelled by its decimal
string). Returns the effective triple the Avalanche client is built
from. -/
def connectAvaNode (address port protocol : Option String) : String × String × String :=
  (address.getD "127.0.0.1", port.getD "9650", protocol.getD "http")

/-- The observable outcome of one CommandHandler.handleCommand call; each
constructor corresponds to one return path of the source function:
printedHelpBasic is the printHelpBasic message, printedHelp records the
argument passed to printHelp, connectCalled records the three arguments
passed to App.connectAvaNode, unknownContextOrCommand and unknownMethod
are the two unknown messages, disconnected is the refusal printing the
disconnection message and the connect usage hint, invalidArgs is the
invalid-arguments message plus usage, and invoked records the method call
with raised true when the handler body threw (the error is logged and
swallowed). -/
inductive DispatchResult where
  | printedHelpBasic
  | printedHelp (target : Option String)
  | connectCalled (address port protocol : Option String)
  | unknownContextOrCommand
  | unknownMethod (method context : String)
  | disconnected
  | invalidArgs (context method : String)
  | invoked (context method : String) (args : List String) (raised : Bool)
deriving DecidableEq, Repr

/-- The handler oracle: the body of a resolved handler method, which
either returns or throws (Except.error). It stands for the external
collaborator calls of the handler classes. -/
def HandlerOracle : Type :=
  String → String → List String → Except String Unit

/-- The try-catch around methodFn.call in handleCommand: a thrown error is
caught and logged, never re-raised. -/
def invokeCaught (oracle : HandlerOracle) (context m : String) (args : List String) :
    Except String DispatchResult :=
  match oracle context m args with
  | Except.ok _ => Except.ok (DispatchResult.invoked context m args false)
  | Except.error _ => Except.ok (DispatchResult.invoked context m args true)

/-- The context resolution step of handleCommand: take the truthy
activeContext as the context, or, at top level, require at least two
tokens and shift the first as the context name; none is the early
printHelpBasic return. -/
def resolveContext (activeContext : Option String) (p0 : String) (rest : List String) :
    Option (String × List String) :=
  if optTruthy activeContext then some (activeContext.getD "", p0 :: rest)
  else if (p0 :: rest).length < 2 then none
  else some (p0, rest)

/-- CommandHandler.handleCommand on an already tokenized input line.
The branches follow the source in order: empty input, single-token help,
two-token context help, connect (which shifts the first token and then
passes params one, two and three of the shifted array to connectAvaNode),
context resolution from activeContext or the first token, unknown
context, method shift, unknown method, the disconnection refusal, spec
validation, and the guarded invocation. The Except layer carries a thrown
JS error; every branch of the translation returns ok because the only
throw site is wrapped by invokeCaught. -/
def handleCommand (connected : Bool) (activeContext : Option String)
    (oracle : HandlerOracle) (params : List String) : Except String DispatchResult :=
  match params with
  | [] => Except.ok DispatchResult.printedHelpBasic
  | p0 :: rest =>
    if (p0 :: rest).length == 1 && p0 == "help" then
      Except.ok (DispatchResult.printedHelp none)
    else if (p0 :: rest).length == 2 && isContext p0 && rest.getD 0 "" == "help" then
      Except.ok (DispatchResult.printedHelp (some p0))
    else if p0 == "connect" then
      Except.ok (DispatchResult.connectCalled rest[1]? rest[2]? rest[3]?)
    else
      match resolveContext activeContext p0 rest with
      | none => Except.ok DispatchResult.printedHelpBasic
      | some (context, params2) =>
        if !(isContext context) then
          Except.ok DispatchResult.unknownContextOrCommand
        else
          match params2 with
          | [] => Except.ok (DispatchResult.unknownMethod "undefined" context)
          | m :: args =>
            if !(methodExists context m) then
              Except.ok (DispatchResult.unknownMethod m context)
            else if !connected then
              Except.ok DispatchResult.disconnected
            else
              match getCommandSpec context m with
              | some cs =>
                if !(cs.validateInput args) then
                  Except.ok (DispatchResult.invalidArgs context m)
                else invokeCaught oracle context m args
              | none => invokeCaught oracle context m args

/-- The resolution prefix of handleCommand, written independently: the
token list reaches the handler invocation stage with a context, a method
name and remaining arguments exactly when none of the meta branches
(empty input, help forms, connect) fires, a context can be resolved, the
context is known and the shifted method name exists on its handler. -/
def resolvesToMethod (activeContext : Option String) (params : List String) :
    Option (String × String × List String) :=
  match params with
  | [] => none
  | p0 :: rest =>
    if (p0 :: rest).length == 1 && p0 == "help" then none
    else if (p0 :: rest).length == 2 && isContext p0 && rest.getD 0 "" == "help" then none
    else if p0 == "connect" then none
    else
      match resolveContext activeContext p0 rest with
      | none => none
      | some (context, params2) =>
        if !(isContext context) then none
        else
          match params2 with
          | [] => none
          | m :: args =>
            if !(methodExists context m) then none
            else some (context, m, args)

/-- Recursion for splitTokens over the characters of the line, carrying
the reversed characters of the token being read. -/
def splitTokensAux : List Char → List Char → List String
  | [], acc => if acc.isEmpty then [] else [String.mk acc.reverse]
  | c :: cs, acc =>
    if c.isWhitespace then
      if acc.isEmpty then splitTokensAux cs []
      else String.mk acc.reverse :: splitTokensAux cs []
    else splitTokensAux cs (c :: acc)

/-- Modelled from the spec: the external tokenizer collaborator
StringUtility.splitTokens, which is not part of the sources under
verification. The spec describes it as splitting a raw line into
whitespace-separated tokens, treating quoted substrings as single tokens;
quoting is not exercised by any claim and is not modelled. -/
def splitTokens (line : String) : List String :=
  splitTokensAux line.data []

/-- The JS String.prototype.trim applied by evalHandler, as a structural
function: drop whitespace from both ends of the line. -/
def trimString (s : String) : String :=
  String.mk (((s.data.dropWhile Char.isWhitespace).reverse.dropWhile
    Char.isWhitespace).reverse)

/-- The session state owned by the dispatcher and read by the shell:
CommandHandler.activeContext and App.isConnected. -/
structure ShellState where
  activeContext : Option String
  connected : Bool
deriving DecidableEq, Repr

/-- The observable effect of one AvaShell.evalHandler call: nothing beyond
a possible state change, process termination, a dispatched command with
its outcome, or the catch branch of evalHandler (an error escaping
handleCommand). -/
inductive ShellEffect where
  | noEffect
  | terminated
  | dispatched (r : DispatchResult)
  | errored (e : String)
deriving DecidableEq, Repr

/-- AvaShell.evalHandler: trim the line; an empty line does nothing; exit
pops a truthy active context or terminates the process at top level; a
known context name different from the active context becomes the new
active context without dispatching; anything else is dispatched through
handleCommand, whose thrown errors the surrounding try-catch would turn
into the errored effect. -/
def evalShell (st : ShellState) (oracle : HandlerOracle) (cmdRaw : String) :
    ShellState × ShellEffect :=
  let cmd := trimString cmdRaw
  if cmd == "" then (st, ShellEffect.noEffect)
  else if cmd == "exit" then
    if optTruthy st.activeContext then
      ({ st with activeContext := none }, ShellEffect.noEffect)
    else
      (st, ShellEffect.terminated)
  else if isContext cmd && !(st.activeContext == some cmd) then
    ({ st with activeContext := some cmd }, ShellEffect.noEffect)
  else
    match handleCommand st.connected st.activeContext oracle (splitTokens cmd) with
    | Except.ok r => (st, ShellEffect.dispatched r)
    | Except.error e => (st, ShellEffect.errored e)

/-- The keystore createUser spec as it sits in the registry after
addCommandSpec assigned its name and context. -/
def createUserSpec : CommandSpec :=
  { name := "createUser", context := "keystore",
    fields := [fieldReq "username", fieldReq "password"],
    description := "Creates a user in the node’s database." }

/-- A handler oracle whose calls all succeed, used as a concrete
collaborator in witnesses. -/
def okOracle : HandlerOracle := fun _ _ _ => Except.ok ()

/-- A handler oracle whose calls all throw, used as a concrete
collaborator in witnesses. -/
def throwingOracle : HandlerOracle := fun _ _ _ => Except.error "node client failure"

/-- Folding the required-field counter of the CommandSpec constructor over
a field list counts exactly the fields with a falsy default. -/
theorem countRequired_foldl (fields : List FieldSpec) (n : Nat) :
    fields.foldl (fun acc f => if f.isFalsyDefault then acc + 1 else acc) n
      = n + (fields.filter (fun f => f.isFalsyDefault)).length := by
  induction fields generalizing n with
  | nil => simp
  | cons f fs ih =>
    by_cases hf : f.isFalsyDefault = true
    · simp [List.filter_cons, hf, ih]
      omega
    · simp [List.filter_cons, hf, ih]

/-- countRequiredFields counts the fields with a falsy default. -/
theorem countRequiredFields_eq (c : CommandSpec) :
    c.countRequiredFields = (c.fields.filter (fun f => f.isFalsyDefault)).length := by
  rw [CommandSpec.countRequiredFields, countRequired_foldl, Nat.zero_add]

/-- The try-catch wrapper around a handler invocation always returns
normally. -/
theorem invokeCaught_ok (oracle : HandlerOracle) (context m : String) (args : List String) :
    ∃ r, invokeCaught oracle context m args = Except.ok r := by
  rw [invokeCaught]
  cases oracle context m args
  · exact ⟨_, rfl⟩
  · exact ⟨_, rfl⟩

/-- Claim C1. The dispatcher was meant to pass the up-to-three tokens
after connect to the connection collaborator as host, port and protocol,
as documented by its own usage hint. The code shifts off the connect
token and then reads positions one, two and three of the shifted array,
dropping the first remaining token: on the line connect myhost 9660
https, App.connectAvaNode receives 9660 as its address, https as its
port, and nothing as its protocol, so the effective connection triple is
(9660, https, http) instead of (myhost, 9660, https). -/
theorem connect_drops_first_token :
    handleCommand true none okOracle ["connect", "myhost", "9660", "https"]
        = Except.ok (DispatchResult.connectCalled (some "9660") (some "https") none)
      ∧ connectAvaNode (some "9660") (some "https") none = ("9660", "https", "http")
      ∧ ("9660", "https", "http") ≠ ("myhost", "9660", "https") := by
  refine ⟨rfl, rfl, by decide⟩

/-- Claim C2, counterexample: connect is not among the top-level commands
returned by getTopLevelCommands, because META_COMMANDS contains only help
and exit. -/
theorem topLevel_no_connect :
    getTopLevelCommands.contains "connect" = false := by
  rfl

/-- Claim C2, amended: getTopLevelCommands returns the meta-commands help
and exit (connect is not one of them), followed by the context names in
handlerMap declaration order. -/
theorem topLevel_commands_eval :
    getTopLevelCommands = META_COMMANDS ++ handlerMapContexts
      ∧ getTopLevelCommands = ["help", "exit", "info", "keystore", "avm", "platform", "health"] := by
  exact ⟨rfl, rfl⟩

/-- Claim C3, counterexample: registering two command specs whose ids
coincide does not fail; addCommandSpec silently overwrites, so the second
registration replaces the first and the map completes with one entry. The
ids collide even though the context and name pairs differ. -/
theorem addCommandSpec_overwrites_duplicate :
    addCommandSpec
        (addCommandSpec [] [("b_c", spec0 [] "first")] "a")
        [("c", spec0 [] "second")] "a_b"
      = [("a_b_c", { name := "c", context := "a_b", fields := [], description := "second" })]
      ∧ CommandSpec.id { name := "b_c", context := "a", fields := [], description := "first" }
          = CommandSpec.id { name := "c", context := "a_b", fields := [], description := "second" } := by
  exact ⟨rfl, rfl⟩

/-- Claim C3, amended: registration never checks for duplicates and a
duplicate id would silently overwrite the earlier spec; for the handlers
actually registered at startup no collision occurs: the registry holds
all 43 specs, every entry sits under its own id as key, and the ids are
pairwise distinct. -/
theorem registry_ids_distinct :
    (commandSpecMap.map Prod.fst).Nodup
      ∧ commandSpecMap.length = 43
      ∧ commandSpecMap.all (fun e => e.1 == CommandSpec.id e.2) = true := by
  refine ⟨by decide, rfl, rfl⟩

/-- Claim C6. For every command spec, validateInput accepts exactly the
argument lists at least as long as countRequiredFields, so extra trailing
arguments always pass; and for every spec registered in the registry,
countRequiredFields equals the number of fields without a default value
(all registered defaults are non-empty strings, so the falsy-default
counter agrees with absence of a default). -/
theorem validateInput_arity :
    (∀ (c : CommandSpec) (args : List String),
        c.validateInput args = true ↔ c.countRequiredFields ≤ args.length)
      ∧ (∀ c, c ∈ commandSpecMap.map Prod.snd →
          c.countRequiredFields = (c.fields.filter (fun f => f.defaultValue.isNone)).length)
      ∧ (∀ (c : CommandSpec) (args extra : List String),
          c.validateInput args = true → c.validateInput (args ++ extra) = true) := by
  refine ⟨?_, ?_, ?_⟩
  · intro c args
    rw [CommandSpec.validateInput]
    by_cases h : args.length < c.countRequiredFields
    · simp only [if_pos h]
      constructor
      · intro hh
        exact absurd hh (by decide)
      · intro hh
        omega
    · simp only [if_neg h]
      constructor
      · intro _
        omega
      · intro _
        trivial
  · decide
  · intro c args extra h
    rw [CommandSpec.validateInput] at h ⊢
    by_cases h2 : args.length < c.countRequiredFields
    · rw [if_pos h2] at h
      exact absurd h (by decide)
    · have hle : ¬ (args ++ extra).length < c.countRequiredFields := by
        rw [List.length_append]
        omega
      rw [if_neg hle]

/-- Witness for claim C6 at the keystore createUser spec, which has two
required fields: it is registered, its required count is the number of
fields without a default (two), and two arguments pass while adding a
third extra argument also passes. -/
theorem validateInput_arity_witness :
    createUserSpec.countRequiredFields
        = (createUserSpec.fields.filter (fun f => f.defaultValue.isNone)).length
      ∧ createUserSpec.validateInput ["u", "p"] = true
      ∧ createUserSpec.validateInput ["u", "p", "extra"] = true := by
  refine ⟨validateInput_arity.2.1 createUserSpec (by decide), ?_, ?_⟩
  · exact (validateInput_arity.1 createUserSpec ["u", "p"]).mpr (by decide)
  · exact validateInput_arity.2.2 createUserSpec ["u", "p"] ["extra"]
      ((validateInput_arity.1 createUserSpec ["u", "p"]).mpr (by decide))

/-- Claim C9. A field whose default value is falsy (absent or the empty
string) is counted toward countRequiredFields and rendered as a required
field in angle brackets; the optional rendering in square brackets with
the default applies exactly to the fields whose default is truthy (a
non-empty string). -/
theorem falsy_default_required :
    (∀ (fields : List FieldSpec) (d : String),
        (CommandSpec.mk "" "" fields d).countRequiredFields
          = (fields.filter (fun f => f.isFalsyDefault)).length)
      ∧ (∀ f : FieldSpec, f.isFalsyDefault = true →
          f.toHelpString = "<" ++ f.name ++ ">")
      ∧ (∀ (f : FieldSpec) (d : String), f.defaultValue = some d → d ≠ "" →
          f.isFalsyDefault = false ∧ f.toHelpString = "[" ++ f.name ++ "=" ++ d ++ "]")
      ∧ FieldSpec.isFalsyDefault { name := "f", defaultValue := some "" } = true := by
  refine ⟨?_, ?_, ?_, by decide⟩
  · intro fields d
    exact countRequiredFields_eq _
  · intro f h
    rw [FieldSpec.toHelpString, if_pos h]
  · intro f d hd hne
    have hf : f.isFalsyDefault = false := by
      rw [FieldSpec.isFalsyDefault, hd]
      simpa using hne
    refine ⟨hf, ?_⟩
    rw [FieldSpec.toHelpString, hf]
    simp [hd]

/-- Witness for claim C9: a field with the empty string as default is
falsy and renders as required, while the sourceChain field with default X
renders as optional. -/
theorem falsy_default_required_witness :
    FieldSpec.toHelpString { name := "f", defaultValue := some "" } = "<f>"
      ∧ FieldSpec.toHelpString (fieldOpt "sourceChain" "X") = "[sourceChain=X]" := by
  constructor
  · exact falsy_default_required.2.1 { name := "f", defaultValue := some "" } (by decide)
  · exact (falsy_default_required.2.2.1 (fieldOpt "sourceChain" "X") "X" rfl (by decide)).2

/-- Claim C5. handleCommand never re-raises a failure to its caller: for
every connectivity state, active context, handler behavior (including a
throwing node client) and token list, the call returns normally; the only
throw site is the handler invocation, which sits inside the try-catch
modelled by invokeCaught. -/
theorem handleCommand_never_raises (connected : Bool) (activeContext : Option String)
    (oracle : HandlerOracle) (params : List String) :
    ∃ r, handleCommand connected activeContext oracle params = Except.ok r := by
  cases params with
  | nil => exact ⟨_, rfl⟩
  | cons p0 rest =>
    rw [handleCommand]
    repeat' first
      | apply invokeCaught_ok
      | exact ⟨_, rfl⟩
      | split

/-- Claim C4. Whenever a token list resolves to a context and a handler
method (so the dispatch is a non-meta command reaching the invocation
stage) while the connectivity flag is false, handleCommand returns the
disconnected refusal, printing the disconnection message and the connect
usage hint; the result holds for every handler oracle, so the resolved
method is never invoked. -/
theorem handle_disconnected_refuses (activeContext : Option String) (oracle : HandlerOracle)
    (params : List String) (context m : String) (args : List String)
    (h : resolvesToMethod activeContext params = some (context, m, args)) :
    handleCommand false activeContext oracle params = Except.ok DispatchResult.disconnected := by
  cases params with
  | nil =>
    rw [resolvesToMethod] at h
    exact absurd h (by simp)
  | cons p0 rest =>
    rw [resolvesToMethod] at h
    rw [handleCommand]
    by_cases h1 : ((p0 :: rest).length == 1 && p0 == "help") = true
    · rw [if_pos h1] at h
      exact absurd h (by simp)
    rw [if_neg h1] at h
    rw [if_neg h1]
    by_cases h2 : ((p0 :: rest).length == 2 && isContext p0 && rest.getD 0 "" == "help") = true
    · rw [if_pos h2] at h
      exact absurd h (by simp)
    rw [if_neg h2] at h
    rw [if_neg h2]
    by_cases h3 : (p0 == "connect") = true
    · rw [if_pos h3] at h
      exact absurd h (by simp)
    rw [if_neg h3] at h
    rw [if_neg h3]
    cases hS : resolveContext activeContext p0 rest with
    | none =>
      rw [hS] at h
      simp at h
    | some cp =>
      obtain ⟨ctx2, params2⟩ := cp
      rw [hS] at h
      dsimp only at h ⊢
      by_cases h4 : (!(isContext ctx2)) = true
      · rw [if_pos h4] at h
        exact absurd h (by simp)
      rw [if_neg h4] at h
      rw [if_neg h4]
      cases params2 with
      | nil => exact absurd h (by simp)
      | cons m2 args2 =>
        dsimp only at h ⊢
        by_cases h5 : (!(methodExists ctx2 m2)) = true
        · rw [if_pos h5] at h
          exact absurd h (by simp)
        rw [if_neg h5] at h
        rw [if_neg h5]
        simp

/-- Witness for claim C4: at top level with the connectivity flag false,
the line info nodeId resolves to the nodeId method of the info handler
and is refused with the disconnection message even under a throwing
handler oracle. -/
theorem handle_disconnected_refuses_witness :
    handleCommand false none throwingOracle ["info", "nodeId"]
      = Except.ok DispatchResult.disconnected := by
  exact handle_disconnected_refuses none throwingOracle ["info", "nodeId"]
    "info" "nodeId" [] (by rfl)

/-- Claim C7. Evaluating exit while a context is active resets the active
context to null with no process termination; evaluating exit with no
active context terminates the process. -/
theorem exit_pops_or_terminates :
    (∀ (st : ShellState) (oracle : HandlerOracle) (c : String),
        st.activeContext = some c → c ≠ "" →
        evalShell st oracle "exit" = ({ st with activeContext := none }, ShellEffect.noEffect))
      ∧ (∀ (st : ShellState) (oracle : HandlerOracle), st.activeContext = none →
        evalShell st oracle "exit" = (st, ShellEffect.terminated)) := by
  have htrim : trimString "exit" = "exit" := by decide
  constructor
  · intro st oracle c hc hne
    rw [evalShell]
    simp only [htrim, hc]
    simp [optTruthy, hne]
  · intro st oracle hc
    rw [evalShell]
    simp only [htrim, hc]
    simp [optTruthy]

/-- Witness for claim C7: with platform active, exit pops back to top
level without terminating; at top level, exit terminates. -/
theorem exit_pops_or_terminates_witness :
    evalShell { activeContext := some "platform", connected := true } okOracle "exit"
        = ({ activeContext := none, connected := true }, ShellEffect.noEffect)
      ∧ evalShell { activeContext := none, connected := true } okOracle "exit"
        = ({ activeContext := none, connected := true }, ShellEffect.terminated) := by
  constructor
  · exact exit_pops_or_terminates.1 _ okOracle "platform" rfl (by decide)
  · exact exit_pops_or_terminates.2 _ okOracle rfl

/-- The skipping loop of printHelp equals a filter of the context list by
the effective target followed by rendering every kept context block. -/
theorem printHelpLoop_eq (cm : List (String × List String)) (sm : List (String × CommandSpec))
    (target : Option String) (l : List String) :
    printHelpLoop cm sm target l
      = (l.filter (fun c => !(optTruthy target && !(c == target.getD "")))).flatMap
          (contextBlock cm sm) := by
  induction l with
  | nil => rfl
  | cons c rest ih =>
    rw [printHelpLoop, List.filter_cons]
    by_cases hc : (optTruthy target && !(c == target.getD "")) = true
    · simp [hc, ih]
    · simp only [hc, Bool.not_false, if_pos]
      simp only [Bool.not_eq_true] at hc
      simp [hc, ih]

set_option maxHeartbeats 2000000 in
/-- Claim C8, counterexample: printHelp called with no target does not
always iterate all contexts; with platform as the active context the avm
context header is not rendered, although it is rendered when no context
is active. -/
theorem printHelp_active_fallback_cex :
    ((printHelp contextMethodMap commandSpecMap none none).contains "avm") = true
      ∧ ((printHelp contextMethodMap commandSpecMap (some "platform") none).contains "avm")
          = false := by
  constructor
  · decide
  · decide

/-- Claim C8, amended: printHelp first replaces an absent target by the
active context; it then iterates the contexts in sorted name order,
keeping exactly those matching the effective target (all of them when the
effective target is null), and renders each kept context as its header
followed by its commands in sorted name order, each shown through its
Command Spec usage when a spec exists and as the bare method name
otherwise (the contextBlock and renderMethod definitions). -/
theorem printHelp_sorted_filtered (cm : List (String × List String))
    (sm : List (String × CommandSpec)) (ac t : Option String) :
    printHelp cm sm ac t
      = helpHeader ++ ((sortStrings (cm.map Prod.fst)).filter
          (fun c => !(optTruthy (jsOr t ac) && !(c == (jsOr t ac).getD "")))).flatMap
          (contextBlock cm sm) := by
  rw [printHelp, printHelpLoop_eq]

/-- The context switching branch of evalShell, for a trim-stable known
context name typed while a different context is active. -/
theorem evalShell_switch (b a : String) (conn : Bool) (oracle : HandlerOracle)
    (ht : trimString a = a) (hne : a ≠ "") (hnx : a ≠ "exit")
    (ha : isContext a = true) (hba : b ≠ a) :
    evalShell { activeContext := some b, connected := conn } oracle a
      = ({ activeContext := some a, connected := conn }, ShellEffect.noEffect) := by
  rw [evalShell]
  have hsome : ((some b : Option String) == some a) = false :=
    beq_eq_false_iff_ne.mpr (fun hcontra => hba (Option.some.inj hcontra))
  have hne2 : (a == "") = false := beq_eq_false_iff_ne.mpr hne
  have hnx2 : (a == "exit") = false := beq_eq_false_iff_ne.mpr hnx
  simp [ht, hne2, hnx2, ha, hsome]

/-- Claim C10. With some context active, typing the bare name of a
different known context switches the active context directly to it, with
no dispatch and no intermediate top level; typing the bare name of the
currently active context is dispatched as a command and yields the
unknown-method message for that name in that context, for any
connectivity state. -/
theorem context_name_switch_or_unknown :
    (∀ (b a : String) (conn : Bool) (oracle : HandlerOracle),
        isContext a = true → b ≠ a →
        evalShell { activeContext := some b, connected := conn } oracle a
          = ({ activeContext := some a, connected := conn }, ShellEffect.noEffect))
      ∧ (∀ (b : String) (conn : Bool) (oracle : HandlerOracle),
        isContext b = true →
        evalShell { activeContext := some b, connected := conn } oracle b
          = ({ activeContext := some b, connected := conn },
             ShellEffect.dispatched (DispatchResult.unknownMethod b b))) := by
  constructor
  · intro b a conn oracle ha hba
    have ha5 : a = "info" ∨ a = "keystore" ∨ a = "avm" ∨ a = "platform" ∨ a = "health" := by
      simpa [isContext, handlerMapContexts] using ha
    rcases ha5 with h | h | h | h | h <;> subst h <;>
      exact evalShell_switch _ _ _ _ (by decide) (by decide) (by decide) (by decide) hba
  · intro b conn oracle hb
    have hb5 : b = "info" ∨ b = "keystore" ∨ b = "avm" ∨ b = "platform" ∨ b = "health" := by
      simpa [isContext, handlerMapContexts] using hb
    rcases hb5 with h | h | h | h | h <;> subst h <;> rfl

/-- Witness for claim C10: with keystore active, typing platform switches
directly to the platform context; with platform active, typing platform
is dispatched and reports an unknown method. -/
theorem context_name_switch_or_unknown_witness :
    evalShell { activeContext := some "keystore", connected := true } okOracle "platform"
        = ({ activeContext := some "platform", connected := true }, ShellEffect.noEffect)
      ∧ evalShell { activeContext := some "platform", connected := false } okOracle "platform"
        = ({ activeContext := some "platform", connected := false },
           ShellEffect.dispatched (DispatchResult.unknownMethod "platform" "platform")) := by
  constructor
  · exact context_name_switch_or_unknown.1 "keystore" "platform" true okOracle
      (by decide) (by decide)
  · exact context_name_switch_or_unknown.2 "platform" false okOracle (by decide)

end AvaRepl
